import Mathlib

/-
Verification of the parasail-rs configuration/dispatch core against its
natural-language specification.

The Rust sources embedded here are the current modular implementation:
  src/matrix/mod.rs, src/matrix/error.rs,
  src/aligner/mod.rs, src/aligner/error.rs,
  src/profile/profile_creator.rs, src/profile/error.rs.
The native parasail backend (libparasail-sys) is an external collaborator;
its data structures are modelled from the spec's description of the backend
boundary (a matrix-table structure exposing `size`, `length` and a flat
score array; an opaque result handle queryable via capability predicates).
-/

namespace Parasail

/-- Decidable equality for `Except`, so claim instances evaluate by `decide`. -/
instance {ε α : Type} [DecidableEq ε] [DecidableEq α] : DecidableEq (Except ε α) := fun
  | .ok a, .ok b =>
      if h : a = b then .isTrue (by rw [h]) else .isFalse (by simp [h])
  | .ok _, .error _ => .isFalse (by simp)
  | .error _, .ok _ => .isFalse (by simp)
  | .error e, .error f =>
      if h : e = f then .isTrue (by rw [h]) else .isFalse (by simp [h])

/-- Modelled from the spec: the external backend's `parasail_matrix_t`
structure — "a matrix-table structure exposing `size`, `length`, and a flat
score array".  The flat array is row-major with stride `size` (the layout
the repository's own `Display` impl reads: `matrix[i * size + j]`, and the
layout of the documented matrix file format, where each row of an
n-symbol alphabet carries n in-alphabet columns plus a terminating
wildcard column). -/
structure ParasailMatrixData where
  size : Int
  length : Int
  table : List Int
  deriving DecidableEq

/-- The model heap: backend-owned matrix allocations, addressed by index.
Backend-static (builtin) tables and heap allocations live in the same
store; freshness of `parasail_matrix_copy` results is what separates them. -/
abbrev Heap := List ParasailMatrixData

/-- Read a matrix allocation; a dangling pointer yields a dummy table. -/
def Heap.get (h : Heap) (p : Nat) : ParasailMatrixData :=
  List.getD h p ⟨0, 0, []⟩

def Heap.length (h : Heap) : Nat := List.length h

/-- Modelled from the spec: `parasail_matrix_copy` — copies the underlying
table into a fresh backend allocation and returns the new handle. -/
def parasail_matrix_copy (h : Heap) (p : Nat) : Heap × Nat :=
  (h ++ [h.get p], h.length)

/-- Modelled from the spec: `parasail_matrix_set_value` — the backend writes
`value` into the flat score array at row-major position `row * size + col`. -/
def parasail_matrix_set_value (h : Heap) (p : Nat) (row col value : Int) : Heap :=
  let d := h.get p
  List.set h p { d with table := d.table.set (row * d.size + col).toNat value }

/-- Modelled from the spec: `parasail_matrix_create alphabet match mismatch`
builds the square substitution table for an n-symbol alphabet: every
diagonal in-alphabet cell holds `match_score`, every off-diagonal
in-alphabet cell holds `mismatch_score`, and a terminating wildcard
row/column (scored 0, value not specified by the spec and irrelevant to the
claims) brings the backend-reported dimension to `size = n + 1`. -/
def parasail_matrix_create (alphabet : List Nat) (match_score mismatch_score : Int) :
    ParasailMatrixData :=
  let n := alphabet.length
  let s := n + 1
  { size := (s : Int)
    length := (s : Int)
    table := (List.range (s * s)).map (fun k =>
      let i := k / s
      let j := k % s
      if i < n ∧ j < n then (if i = j then match_score else mismatch_score) else 0) }

/-- `crate::matrix::Error` (src/matrix/error.rs).  The `InvalidIndex` variant
is used by src/matrix/mod.rs but missing from the refactored error.rs; it is
modelled from the spec: "violating indices yield an `InvalidIndex` error". -/
inductive MatrixError where
  | NulError
  | MatrixNotFound (matrix_name : String)
  | MatrixLookupFailed (matrix_name : String)
  | MatrixCreationFailed (alphabet : String) (match_score mismatch_score : Int)
  | PSSMCreationFailed
  | FromFileFailed (filepath : String)
  | InvalidIndex (row col : Int)
  deriving DecidableEq

/-- `Matrix` (src/matrix/mod.rs): `Builtin` wraps a backend-static table
pointer, `Custom` a heap-owned one.  Pointers are heap indices in the model. -/
inductive Matrix where
  | Builtin (p : Nat)
  | Custom (p : Nat)
  deriving DecidableEq

/-- The `Deref` impl: both variants expose the raw table pointer. -/
def Matrix.ptr : Matrix → Nat
  | .Builtin p => p
  | .Custom p => p

/-- `Matrix::create` (src/matrix/mod.rs:48-66): `CString::new` fails on an
interior null byte; otherwise the backend allocates the table and the result
is the `Custom` variant.  (The backend's out-of-memory null return has no
counterpart in the model.) -/
def Matrix.create (h : Heap) (alphabet : List Nat) (match_score mismatch_score : Int) :
    Except MatrixError (Heap × Matrix) :=
  if alphabet.contains 0 then
    .error .NulError
  else
    .ok (h ++ [parasail_matrix_create alphabet match_score mismatch_score],
         .Custom h.length)

/-- Modelled from the spec: `parasail_matrix_pssm_create alphabet values
n_rows` — a position-specific scoring matrix scores per (query position,
alphabet symbol) pair, so its table is `length × size` with `length = n_rows`
(the row count, independent of `size`) and `size = n + 1` (the n-symbol
alphabet plus the terminating wildcard column); this is the `length`/`size`
pair the backend struct exposes and the repository's `Display` impl prints
(`length` rows of `size` columns).  Row i, column j holds `values[i*n + j]`
for an in-alphabet column, 0 in the wildcard column. -/
def parasail_matrix_pssm_create (alphabet : List Nat) (values : List Int) (n_rows : Int) :
    ParasailMatrixData :=
  let n := alphabet.length
  let s := n + 1
  let rows := n_rows.toNat
  { size := (s : Int)
    length := n_rows
    table := (List.range (rows * s)).map (fun k =>
      let i := k / s
      let j := k % s
      if j < n then values.getD (i * n + j) 0 else 0) }

/-- `Matrix::create_pssm` (src/matrix/mod.rs:70-85): `CString::new` fails on
an interior null byte; otherwise the backend allocates the PSSM table and the
result is the `Custom` variant.  (The backend's null return has no
counterpart in the model.) -/
def Matrix.create_pssm (h : Heap) (alphabet : List Nat) (values : List Int) (n_rows : Int) :
    Except MatrixError (Heap × Matrix) :=
  if alphabet.contains 0 then
    .error .NulError
  else
    .ok (h ++ [parasail_matrix_pssm_create alphabet values n_rows],
         .Custom h.length)

/-- `impl Clone for Matrix` (src/matrix/mod.rs:203-211): copies the table via
`parasail_matrix_copy` and rebuilds the SAME variant around the fresh copy. -/
def Matrix.clone (h : Heap) (m : Matrix) : Heap × Matrix :=
  let hc := parasail_matrix_copy h m.ptr
  match m with
  | .Builtin _ => (hc.1, .Builtin hc.2)
  | .Custom _ => (hc.1, .Custom hc.2)

/-- `indices_are_valid` (src/matrix/mod.rs:155-161). -/
def indices_are_valid (size row col : Int) : Except MatrixError Unit :=
  if row < 0 ∨ row > size ∨ col < 0 ∨ col > size then
    .error (.InvalidIndex row col)
  else
    .ok ()

/-- `Matrix::set_value` (src/matrix/mod.rs:125-136): a `Builtin` receiver is
first replaced by its clone (`*self = self.clone()`), then `size - 2` is read
from the backend table, the indices are validated, and the backend write is
performed.  The returned triple is (heap after the call, the receiver after
the call, the `Result`). -/
def Matrix.set_value (h : Heap) (m : Matrix) (row col value : Int) :
    Heap × Matrix × Except MatrixError Unit :=
  let hm : Heap × Matrix :=
    match m with
    | .Builtin _ => Matrix.clone h m
    | .Custom _ => (h, m)
  let size := (hm.1.get hm.2.ptr).size - 2
  match indices_are_valid size row col with
  | .error e => (hm.1, hm.2, .error e)
  | .ok _ => (parasail_matrix_set_value hm.1 hm.2.ptr row col value, hm.2, .ok ())

/-- `Matrix::get_value` (src/matrix/mod.rs:139-152): reads `size - 2` from
the backend table, validates the indices, then reads the flat array at
offset `row * (size + 1) + col` (with `size` the decremented local). -/
def Matrix.get_value (h : Heap) (m : Matrix) (row col : Int) :
    Except MatrixError Int :=
  let d := h.get m.ptr
  let size := d.size - 2
  match indices_are_valid size row col with
  | .error e => .error e
  | .ok _ => .ok (d.table.getD (row * (size + 1) + col).toNat 0)

/-- `InstructionSet`: referenced by src/aligner/mod.rs and
src/profile/profile_creator.rs through exhaustive matches over exactly these
five variants; the enum's own declaration is not among the refactored
sources, so the type is reconstructed from those matches. -/
inductive InstructionSet where
  | SSE2
  | SSE41
  | AVX2
  | AltiVec
  | Neon
  deriving DecidableEq

/-- `Gap` (src/aligner/mod.rs:21-25).  The source variants are
`Prefix`/`Suffix`/`All`; the first two are shortened to `Pre`/`Suf` here. -/
inductive Gap where
  | Pre
  | Suf
  | All
  deriving DecidableEq

/-- `Profile` (src/profile/mod.rs): an opaque backend profile handle plus the
`use_stats` flag fixed at construction. -/
structure Profile where
  inner : Nat
  use_stats : Bool
  deriving DecidableEq

/-- `crate::aligner::Error` (src/aligner/error.rs).  The last four variants
are used by src/aligner/mod.rs but missing from the refactored error.rs;
they are modelled from the spec's error taxonomy (typed capability errors,
`NullProfile`-style null-handle errors). -/
inductive AlignerError where
  | IncompatibleProfileConfig (vec_strategy : String)
  | InvalidSolutionWidth (solution_width : Nat)
  | NulError
  | FunctionLookupFailed (fn_name : String)
  | NoStatsReturned
  | IncompatibleAlignerFn
  | NoProfileFound
  | NulResult (msg : String)
  deriving DecidableEq

/-- `AlignerBuilder` (src/aligner/mod.rs:30-44).  The token fields hold the
exact `&'static str` tokens of the source. -/
structure AlignerBuilder where
  mode : String
  solution_width : Option Nat
  matrix : Matrix
  gap_open_penalty : Nat
  gap_extend_penalty : Nat
  profile : Option Profile
  allow_query_gaps : String
  allow_ref_gaps : String
  vec_strategy : String
  use_stats : String
  use_table : String
  use_trace : String
  instruction_set : String
  deriving DecidableEq

/-- `impl Default for AlignerBuilder` (src/aligner/mod.rs:315-335).  The
default matrix is a freshly allocated DNA identity matrix; its heap address
is abstracted as 0 (no claim reads the builder's matrix). -/
def AlignerBuilder.default : AlignerBuilder :=
  { mode := "nw"
    solution_width := none
    matrix := .Custom 0
    gap_open_penalty := 0
    gap_extend_penalty := 0
    profile := none
    allow_query_gaps := ""
    allow_ref_gaps := ""
    vec_strategy := ""
    use_stats := ""
    use_table := ""
    use_trace := ""
    instruction_set := "" }

/-- `AlignerBuilder::global` (src/aligner/mod.rs:48-51). -/
def AlignerBuilder.global (b : AlignerBuilder) : AlignerBuilder :=
  { b with mode := "nw" }

/-- `AlignerBuilder::semi_global` (src/aligner/mod.rs:54-57). -/
def AlignerBuilder.semi_global (b : AlignerBuilder) : AlignerBuilder :=
  { b with mode := "sg" }

/-- `AlignerBuilder::local` (src/aligner/mod.rs:60-63). -/
def AlignerBuilder.local (b : AlignerBuilder) : AlignerBuilder :=
  { b with mode := "sw" }

/-- `AlignerBuilder::allow_query_gaps` (src/aligner/mod.rs:98-105); named
`_set` here because the Lean field projection takes the source name. -/
def AlignerBuilder.allow_query_gaps_set (b : AlignerBuilder) (gap : Gap) : AlignerBuilder :=
  match gap with
  | .Pre => { b with allow_query_gaps := "_qb" }
  | .Suf => { b with allow_query_gaps := "_qe" }
  | .All => { b with allow_query_gaps := "_qx" }

/-- `AlignerBuilder::allow_ref_gaps` (src/aligner/mod.rs:110-117). -/
def AlignerBuilder.allow_ref_gaps_set (b : AlignerBuilder) (gap : Gap) : AlignerBuilder :=
  match gap with
  | .Pre => { b with allow_ref_gaps := "_db" }
  | .Suf => { b with allow_ref_gaps := "_de" }
  | .All => { b with allow_ref_gaps := "_dx" }

/-- `AlignerBuilder::return_stats` (src/aligner/mod.rs:122-135): sets the
stats token, then clears traceback (with a warning) if it was enabled. -/
def AlignerBuilder.return_stats (b : AlignerBuilder) : AlignerBuilder :=
  let b := { b with use_stats := "_stats" }
  if b.use_trace ≠ "" then { b with use_trace := "" } else b

/-- `AlignerBuilder::enable_traceback` (src/aligner/mod.rs:140-152): sets the
trace token, then clears stats (with a warning) if they were enabled.  The
table token is not touched. -/
def AlignerBuilder.enable_traceback (b : AlignerBuilder) : AlignerBuilder :=
  let b := { b with use_trace := "_trace" }
  if b.use_stats ≠ "" then { b with use_stats := "" } else b

/-- `AlignerBuilder::return_table` (src/aligner/mod.rs:157-169): if the
rowcol token is already set it only warns; otherwise it sets the table
token. -/
def AlignerBuilder.return_table (b : AlignerBuilder) : AlignerBuilder :=
  if b.use_table = "_rowcol" then b else { b with use_table := "_table" }

/-- `AlignerBuilder::return_last_rowcol` (src/aligner/mod.rs:172-183):
unconditionally sets the rowcol token (warning if the table token was set). -/
def AlignerBuilder.return_last_rowcol (b : AlignerBuilder) : AlignerBuilder :=
  { b with use_table := "_rowcol" }

/-- `AlignerBuilder::scan` (src/aligner/mod.rs:186-189). -/
def AlignerBuilder.scan (b : AlignerBuilder) : AlignerBuilder :=
  { b with vec_strategy := "_scan" }

/-- `AlignerBuilder::striped` (src/aligner/mod.rs:192-195). -/
def AlignerBuilder.striped (b : AlignerBuilder) : AlignerBuilder :=
  { b with vec_strategy := "_striped" }

/-- `AlignerBuilder::diag` (src/aligner/mod.rs:198-201). -/
def AlignerBuilder.diag (b : AlignerBuilder) : AlignerBuilder :=
  { b with vec_strategy := "_diag" }

/-- `AlignerBuilder::solution_width` (src/aligner/mod.rs:204-207). -/
def AlignerBuilder.solution_width_set (b : AlignerBuilder) (width : Nat) : AlignerBuilder :=
  { b with solution_width := some width }

/-- `AlignerBuilder::instruction_set` (src/aligner/mod.rs:209-218). -/
def AlignerBuilder.instruction_set_set (b : AlignerBuilder) (i : InstructionSet) : AlignerBuilder :=
  match i with
  | .SSE2 => { b with instruction_set := "_sse2_128" }
  | .SSE41 => { b with instruction_set := "_sse41_128" }
  | .AVX2 => { b with instruction_set := "_avx2_256" }
  | .AltiVec => { b with instruction_set := "_altivec_128" }
  | .Neon => { b with instruction_set := "_neon_128" }

/-- `AlignerBuilder::profile` (src/aligner/mod.rs:221-229): if the profile
was built with stats the builder's stats token is set; the profile is then
bound.  Nothing is cleared when the profile was built without stats. -/
def AlignerBuilder.profile_set (b : AlignerBuilder) (p : Profile) : AlignerBuilder :=
  let b := if p.use_stats then { b with use_stats := "_stats" } else b
  { b with profile := some p }

/-- `AlignerBuilder::get_vectorization_config` (src/aligner/mod.rs:294-312):
with no vectorization strategy both hints are ignored; otherwise the width
token is `_8`/`_16`/`_32`/`_64`, `_sat` when unset, and any other width is an
`InvalidSolutionWidth` error. -/
def AlignerBuilder.get_vectorization_config (b : AlignerBuilder) :
    Except AlignerError (String × String) :=
  if b.vec_strategy = "" then
    .ok ("", "")
  else
    match b.solution_width with
    | some 8 => .ok (b.instruction_set, "_8")
    | some 16 => .ok (b.instruction_set, "_16")
    | some 32 => .ok (b.instruction_set, "_32")
    | some 64 => .ok (b.instruction_set, "_64")
    | none => .ok (b.instruction_set, "_sat")
    | some w => .error (.InvalidSolutionWidth w)

/-- `AlignerBuilder::get_parasail_fn_name` (src/aligner/mod.rs:267-291): the
canonical identifier is the fixed-order concatenation of the tokens. -/
def AlignerBuilder.get_parasail_fn_name (b : AlignerBuilder) :
    Except AlignerError String :=
  match b.get_vectorization_config with
  | .error e => .error e
  | .ok cfg =>
      let profile := if b.profile.isSome then "_profile" else ""
      .ok ("parasail_" ++ b.mode ++ b.allow_query_gaps ++ b.allow_ref_gaps ++
           b.use_stats ++ b.use_table ++ b.use_trace ++ b.vec_strategy ++
           profile ++ cfg.1 ++ cfg.2)

/-- `AlignerFn` (src/aligner/mod.rs:434-459): a direct-shape or
profile-shape callable; the function pointers themselves are abstracted to
backend symbol handles (`Option Nat`, `none` = null lookup result). -/
inductive AlignerFn where
  | Function (f : Option Nat)
  | PFunction (f : Option Nat)
  deriving DecidableEq

/-- `AlignerFn::is_none` (src/aligner/mod.rs:462-469). -/
def AlignerFn.is_none : AlignerFn → Bool
  | .Function f => f.isNone
  | .PFunction f => f.isNone

/-- Modelled from the spec: the backend's dynamic-symbol-lookup boundary —
`parasail_lookup_function` / `parasail_lookup_pfunction` resolve a canonical
identifier to a callable of the direct or profile shape, or a not-found
indicator. -/
structure Backend where
  lookup_function : String → Option Nat
  lookup_pfunction : String → Option Nat

/-- `Aligner` (src/aligner/mod.rs:339-345). -/
structure Aligner where
  parasail_fn : AlignerFn
  matrix : Matrix
  profile : Option Profile
  gap_open_penalty : Nat
  gap_extend_penalty : Nat
  deriving DecidableEq

/-- `AlignerBuilder::build` (src/aligner/mod.rs:232-264): resolve the
identifier; with a bound profile first require a striped/scan vectorization
strategy and then look the identifier up in the profile-shape table,
otherwise in the direct-shape table; a null lookup result is
`FunctionLookupFailed` carrying the identifier. -/
def AlignerBuilder.build (bk : Backend) (b : AlignerBuilder) :
    Except AlignerError Aligner :=
  match b.get_parasail_fn_name with
  | .error e => .error e
  | .ok fn_name =>
      let pf : Except AlignerError AlignerFn :=
        if b.profile.isSome then
          if b.vec_strategy ≠ "_striped" ∧ b.vec_strategy ≠ "_scan" then
            .error (.IncompatibleProfileConfig b.vec_strategy)
          else
            .ok (.PFunction (bk.lookup_pfunction fn_name))
        else
          .ok (.Function (bk.lookup_function fn_name))
      match pf with
      | .error e => .error e
      | .ok f =>
          if f.is_none then
            .error (.FunctionLookupFailed fn_name)
          else
            .ok { parasail_fn := f
                  matrix := b.matrix
                  profile := b.profile
                  gap_open_penalty := b.gap_open_penalty
                  gap_extend_penalty := b.gap_extend_penalty }

/-- Modelled from the spec: the backend's opaque result handle — "queryable
via capability predicates and field extractors"; the handle records which
code path produced it (stats / table / rowcol / trace) alongside the data
fields the extractors read. -/
structure ParasailResultData where
  score : Int
  end_query : Int
  end_ref : Int
  stats : Bool
  table : Bool
  rowcol : Bool
  stats_table : Bool
  stats_rowcol : Bool
  trace : Bool
  matches' : Int
  similar : Int
  length : Int
  score_table : Int
  deriving DecidableEq

/-- `Alignment` (src/aligner/mod.rs:474-476): wraps the result handle. -/
structure Alignment where
  inner : ParasailResultData
  deriving DecidableEq

/-- `Alignment::is_stats` (src/aligner/mod.rs:657-659). -/
def Alignment.is_stats (a : Alignment) : Bool := a.inner.stats

/-- `Alignment::is_table` (src/aligner/mod.rs:667-669). -/
def Alignment.is_table (a : Alignment) : Bool := a.inner.table

/-- `Alignment::is_rowcol` (src/aligner/mod.rs:672-674). -/
def Alignment.is_rowcol (a : Alignment) : Bool := a.inner.rowcol

/-- `Alignment::is_trace` (src/aligner/mod.rs:682-684). -/
def Alignment.is_trace (a : Alignment) : Bool := a.inner.trace

/-- `Alignment::get_score` (src/aligner/mod.rs:480-482): always available. -/
def Alignment.get_score (a : Alignment) : Int := a.inner.score

/-- `Alignment::get_matches` (src/aligner/mod.rs:499-505): gated on the
stats capability predicate. -/
def Alignment.get_matches (a : Alignment) : Except AlignerError Int :=
  if a.is_stats then .ok a.inner.matches' else .error .NoStatsReturned

/-- `Alignment::get_similar` (src/aligner/mod.rs:512-518). -/
def Alignment.get_similar (a : Alignment) : Except AlignerError Int :=
  if a.is_stats then .ok a.inner.similar else .error .NoStatsReturned

/-- `Alignment::get_length` (src/aligner/mod.rs:525-531). -/
def Alignment.get_length (a : Alignment) : Except AlignerError Int :=
  if a.is_stats then .ok a.inner.length else .error .NoStatsReturned

/-- `Alignment::get_score_table` (src/aligner/mod.rs:534-537): reads the
backend score table UNCONDITIONALLY and wraps it in `Ok` — no capability
predicate is consulted.  (The remaining table/rowcol/trace accessors of the
refactored file are `todo!()` stubs.) -/
def Alignment.get_score_table (a : Alignment) : Except AlignerError Int :=
  .ok a.inner.score_table

/-- `crate::profile::Error` (src/profile/error.rs). -/
inductive ProfileError where
  | InvalidSolutionWidth (solution_width : Nat)
  | NullError
  | FunctionLookupFailed (use_stats : Bool) (instruction_set : Option InstructionSet)
      (solution_width : Option Nat)
  | NullProfile (msg : String)
  deriving DecidableEq

/-- `profile_creator_lookup` (src/profile/profile_creator.rs:31-146): the
crate's own dispatcher from (stats flag, instruction set, solution width) to
a backend profile-construction entry point.  The extern function pointers
are represented by their symbol names. -/
def profile_creator_lookup (use_stats : Bool) (instruction_set : Option InstructionSet)
    (solution_width : Option Nat) : Except ProfileError String :=
  match use_stats, instruction_set, solution_width with
  | false, some .SSE2, none => .ok "parasail_profile_create_sse_128_sat"
  | false, some .SSE2, some 8 => .ok "parasail_profile_create_sse_128_8"
  | false, some .SSE2, some 16 => .ok "parasail_profile_create_sse_128_16"
  | false, some .SSE2, some 32 => .ok "parasail_profile_create_sse_128_32"
  | false, some .SSE2, some 64 => .ok "parasail_profile_create_sse_128_64"
  | false, some .SSE41, none => .ok "parasail_profile_create_sse_128_sat"
  | false, some .SSE41, some 8 => .ok "parasail_profile_create_sse_128_8"
  | false, some .SSE41, some 16 => .ok "parasail_profile_create_sse_128_16"
  | false, some .SSE41, some 32 => .ok "parasail_profile_create_sse_128_32"
  | false, some .SSE41, some 64 => .ok "parasail_profile_create_sse_128_64"
  | false, some .AVX2, none => .ok "parasail_profile_create_avx_256_sat"
  | false, some .AVX2, some 8 => .ok "parasail_profile_create_avx_256_8"
  | false, some .AVX2, some 16 => .ok "parasail_profile_create_avx_256_16"
  | false, some .AVX2, some 32 => .ok "parasail_profile_create_avx_256_32"
  | false, some .AVX2, some 64 => .ok "parasail_profile_create_avx_256_64"
  | false, some .Neon, none => .ok "parasail_profile_create_neon_128_sat"
  | false, some .Neon, some 8 => .ok "parasail_profile_create_neon_128_8"
  | false, some .Neon, some 16 => .ok "parasail_profile_create_neon_128_16"
  | false, some .Neon, some 32 => .ok "parasail_profile_create_neon_128_32"
  | false, some .Neon, some 64 => .ok "parasail_profile_create_neon_128_64"
  | false, some .AltiVec, none => .ok "parasail_profile_create_altivec_128_sat"
  | false, some .AltiVec, some 8 => .ok "parasail_profile_create_altivec_128_8"
  | false, some .AltiVec, some 16 => .ok "parasail_profile_create_altivec_128_16"
  | false, some .AltiVec, some 32 => .ok "parasail_profile_create_altivec_128_32"
  | false, some .AltiVec, some 64 => .ok "parasail_profile_create_altivec_128_64"
  | false, none, none => .ok "parasail_profile_create_sat"
  | false, none, some 8 => .ok "parasail_profile_create_8"
  | false, none, some 16 => .ok "parasail_profile_create_16"
  | false, none, some 32 => .ok "parasail_profile_create_32"
  | false, none, some 64 => .ok "parasail_profile_create_64"
  | true, some .SSE2, none => .ok "parasail_profile_create_stats_sse_128_sat"
  | true, some .SSE2, some 8 => .ok "parasail_profile_create_stats_sse_128_8"
  | true, some .SSE2, some 16 => .ok "parasail_profile_create_stats_sse_128_16"
  | true, some .SSE2, some 32 => .ok "parasail_profile_create_stats_sse_128_32"
  | true, some .SSE2, some 64 => .ok "parasail_profile_create_stats_sse_128_64"
  | true, some .SSE41, none => .ok "parasail_profile_create_stats_sse_128_sat"
  | true, some .SSE41, some 8 => .ok "parasail_profile_create_stats_sse_128_8"
  | true, some .SSE41, some 16 => .ok "parasail_profile_create_stats_sse_128_16"
  | true, some .SSE41, some 32 => .ok "parasail_profile_create_stats_sse_128_32"
  | true, some .SSE41, some 64 => .ok "parasail_profile_create_stats_sse_128_64"
  | true, some .AVX2, none => .ok "parasail_profile_create_stats_avx_256_sat"
  | true, some .AVX2, some 8 => .ok "parasail_profile_create_stats_avx_256_8"
  | true, some .AVX2, some 16 => .ok "parasail_profile_create_stats_avx_256_16"
  | true, some .AVX2, some 32 => .ok "parasail_profile_create_stats_avx_256_32"
  | true, some .AVX2, some 64 => .ok "parasail_profile_create_stats_avx_256_64"
  | true, some .Neon, none => .ok "parasail_profile_create_stats_neon_128_sat"
  | true, some .Neon, some 8 => .ok "parasail_profile_create_stats_neon_128_8"
  | true, some .Neon, some 16 => .ok "parasail_profile_create_stats_neon_128_16"
  | true, some .Neon, some 32 => .ok "parasail_profile_create_stats_neon_128_32"
  | true, some .Neon, some 64 => .ok "parasail_profile_create_stats_neon_128_64"
  | true, some .AltiVec, none => .ok "parasail_profile_create_stats_altivec_128_sat"
  | true, some .AltiVec, some 8 => .ok "parasail_profile_create_stats_altivec_128_8"
  | true, some .AltiVec, some 16 => .ok "parasail_profile_create_stats_altivec_128_16"
  | true, some .AltiVec, some 32 => .ok "parasail_profile_create_stats_altivec_128_32"
  | true, some .AltiVec, some 64 => .ok "parasail_profile_create_stats_altivec_128_64"
  | true, none, none => .ok "parasail_profile_create_stats_sat"
  | true, none, some 8 => .ok "parasail_profile_create_stats_8"
  | true, none, some 16 => .ok "parasail_profile_create_stats_16"
  | true, none, some 32 => .ok "parasail_profile_create_stats_32"
  | true, none, some 64 => .ok "parasail_profile_create_stats_64"
  | _, _, _ =>
      .error (.FunctionLookupFailed use_stats instruction_set solution_width)

/-
Concrete scenario objects used by the claim theorems below.
-/

/-- The DNA identity table `Matrix::create(b"ACGT", 1, -1)` allocates
(backend dimension 5 = 4 alphabet symbols + wildcard). -/
def dnaData : ParasailMatrixData := parasail_matrix_create [65, 67, 71, 84] 1 (-1)

/-- The heap after that single allocation. -/
def dnaHeap : Heap := [dnaData]

/-- The `Custom` handle `Matrix::create` returns for it. -/
def dnaMatrix : Matrix := .Custom 0

/-- A heap whose single entry stands for a backend-static builtin table
(`parasail_matrix_lookup` result); the DNA identity table serves as its
contents. -/
def builtinHeap : Heap := [dnaData]

/-- The `Builtin` handle `Matrix::from` wraps around it. -/
def builtinMatrix : Matrix := .Builtin 0

/-- `m2 = m.clone()` on the builtin matrix. -/
def builtinCloneStep : Heap × Matrix := Matrix.clone builtinHeap builtinMatrix

/-- `m2.set_value(0, 0, 100)` after the clone. -/
def builtinSetStep : Heap × Matrix × Except MatrixError Unit :=
  Matrix.set_value builtinCloneStep.1 builtinCloneStep.2 0 0 100

/-- A 20-symbol alphabet (the shape of the documented amino-acid PSSM
example): byte values 65..84. -/
def pssmAlphabet : List Nat := (List.range 20).map (fun k => 65 + k)

/-- A 10-row × 20-column block of PSSM scores (content irrelevant to the
claims). -/
def pssmValues : List Int := List.replicate 200 1

/-- The PSSM table `Matrix::create_pssm(pssmAlphabet, pssmValues, 10)`
allocates: 10 rows of 21 columns (20 symbols + wildcard column). -/
def pssmData : ParasailMatrixData := parasail_matrix_pssm_create pssmAlphabet pssmValues 10

/-- The heap after that single allocation. -/
def pssmHeap : Heap := [pssmData]

/-- The `Custom` handle `Matrix::create_pssm` returns for it. -/
def pssmMatrix : Matrix := .Custom 0

/-- A profile built without stats (`use_stats = false`). -/
def plainProfile : Profile := { inner := 0, use_stats := false }

/-- A backend whose dynamic symbol tables are empty: every lookup misses. -/
def emptyBackend : Backend :=
  { lookup_function := fun _ => none
    lookup_pfunction := fun _ => none }

/-- A result handle produced by a plain alignment: no stats, table, rowcol
or trace capability; the uninitialized score-table slot holds 42. -/
def plainResult : ParasailResultData :=
  { score := 5, end_query := 3, end_ref := 3
    stats := false, table := false, rowcol := false
    stats_table := false, stats_rowcol := false, trace := false
    matches' := 0, similar := 0, length := 0, score_table := 42 }

/-
Claim theorems.
-/

/-- Claim C1 (code bug): after `Matrix::create(b"ACGT", 1, -1)` the backend
table itself is correct — the flat array holds the match score 1 at the true
diagonal cell (1,1), i.e. offset 1 * 5 + 1 for backend stride 5 — but
`get_value` computes its offset with stride `size - 1` instead of `size`, so
`get_value(1, 1)` (and every diagonal cell with row ≥ 1) returns the
mismatch score −1 where the claim requires the match score 1. -/
theorem matrix_get_value_misreads_diagonal :
    Matrix.create ([] : Heap) [65, 67, 71, 84] 1 (-1) = .ok (dnaHeap, dnaMatrix) ∧
    dnaData.table.getD (1 * 5 + 1) 0 = 1 ∧
    Matrix.get_value dnaHeap dnaMatrix 0 0 = .ok 1 ∧
    Matrix.get_value dnaHeap dnaMatrix 1 1 = .ok (-1) ∧
    Matrix.get_value dnaHeap dnaMatrix 3 3 = .ok (-1) :=
  ⟨by decide, by decide, by decide, by decide, by decide⟩

/-- Claim C2: whichever order `return_table` and `return_last_rowcol` are
called in, the resolved table token is the rowcol token `_rowcol`, never
`_table`; on the default builder both orders resolve to
`parasail_nw_rowcol`. -/
theorem table_rowcol_precedence (b : AlignerBuilder) :
    (b.return_table.return_last_rowcol).use_table = "_rowcol" ∧
    (b.return_last_rowcol.return_table).use_table = "_rowcol" ∧
    AlignerBuilder.default.return_table.return_last_rowcol.get_parasail_fn_name =
      .ok "parasail_nw_rowcol" ∧
    AlignerBuilder.default.return_last_rowcol.return_table.get_parasail_fn_name =
      .ok "parasail_nw_rowcol" := by
  refine ⟨rfl, ?_, by decide, by decide⟩
  simp [AlignerBuilder.return_table, AlignerBuilder.return_last_rowcol]

/-- Claim C3, counterexample: a Profile built without stats bound to a
builder on which `return_stats` was called leaves the stats token set, so
the resolved stats token does NOT equal the Profile's own flag. -/
theorem profile_stats_override_ce :
    plainProfile.use_stats = false ∧
    (AlignerBuilder.default.return_stats.profile_set plainProfile).use_stats = "_stats" ∧
    (AlignerBuilder.default.return_stats.profile_set plainProfile).get_parasail_fn_name =
      .ok "parasail_nw_stats_profile" :=
  ⟨rfl, by decide, by decide⟩

/-- Claim C3 as amended: binding a Profile adopts the Profile's stats flag
only in the positive direction — after `profile()`, the stats token is set
iff the Profile was built with stats OR the stats token was already set on
the builder; a stats-less Profile never clears an independently set stats
option. -/
theorem profile_stats_token_union (b : AlignerBuilder) (p : Profile) :
    (b.profile_set p).profile = some p ∧
    ((b.profile_set p).use_stats = "_stats" ↔
      (p.use_stats = true ∨ b.use_stats = "_stats")) := by
  unfold AlignerBuilder.profile_set
  cases hp : p.use_stats <;> simp [hp]

/-- Claim C4, counterexample: a gap-allowance token is emitted in Global
mode (`parasail_nw_qb`), and the allow-all `_qx`/`_dx` tokens are never
collapsed or dropped: SemiGlobal with both sides set to `Gap::All` resolves
to `parasail_sg_qx_dx`, which differs from the no-flag identifier
`parasail_sg`. -/
theorem gap_token_collapse_ce :
    (AlignerBuilder.default.global.allow_query_gaps_set .Pre).get_parasail_fn_name =
      .ok "parasail_nw_qb" ∧
    ((AlignerBuilder.default.semi_global.allow_query_gaps_set .All).allow_ref_gaps_set
        .All).get_parasail_fn_name = .ok "parasail_sg_qx_dx" ∧
    AlignerBuilder.default.semi_global.get_parasail_fn_name = .ok "parasail_sg" ∧
    ("parasail_sg_qx_dx" : String) ≠ "parasail_sg" :=
  ⟨by decide, by decide, by decide, by decide⟩

/-- Claim C4 as amended: gap-allowance tokens are emitted whenever the
corresponding setter was called, in every alignment mode (not only
SemiGlobal); `Gap::All` yields the explicit `_qx`/`_dx` tokens and is never
collapsed into or dropped from the identifier. -/
theorem gap_tokens_any_mode (b : AlignerBuilder) (g : Gap) :
    (b.allow_query_gaps_set g).mode = b.mode ∧
    (b.allow_query_gaps_set g).allow_query_gaps ≠ "" ∧
    (b.allow_ref_gaps_set g).allow_ref_gaps ≠ "" ∧
    (b.allow_query_gaps_set .All).allow_query_gaps = "_qx" ∧
    (b.allow_ref_gaps_set .All).allow_ref_gaps = "_dx" ∧
    (AlignerBuilder.default.global.allow_query_gaps_set g).get_parasail_fn_name =
      .ok ("parasail_nw" ++ (AlignerBuilder.default.allow_query_gaps_set g).allow_query_gaps) ∧
    (AlignerBuilder.default.semi_global.allow_query_gaps_set g).get_parasail_fn_name =
      .ok ("parasail_sg" ++ (AlignerBuilder.default.allow_query_gaps_set g).allow_query_gaps) ∧
    (AlignerBuilder.default.local.allow_query_gaps_set g).get_parasail_fn_name =
      .ok ("parasail_sw" ++ (AlignerBuilder.default.allow_query_gaps_set g).allow_query_gaps) := by
  cases g with
  | Pre =>
      exact ⟨rfl, (by decide : ("_qb" : String) ≠ ""), (by decide : ("_db" : String) ≠ ""),
        rfl, rfl, by decide, by decide, by decide⟩
  | Suf =>
      exact ⟨rfl, (by decide : ("_qe" : String) ≠ ""), (by decide : ("_de" : String) ≠ ""),
        rfl, rfl, by decide, by decide, by decide⟩
  | All =>
      exact ⟨rfl, (by decide : ("_qx" : String) ≠ ""), (by decide : ("_dx" : String) ≠ ""),
        rfl, rfl, by decide, by decide, by decide⟩

/-- Claim C5, counterexample: after `return_table` then `enable_traceback`,
traceback is active and stats are clear, but the table token is still
`_table` — the table option is NOT cleared. -/
theorem traceback_leaves_table_ce :
    AlignerBuilder.default.return_table.enable_traceback.use_trace = "_trace" ∧
    AlignerBuilder.default.return_table.enable_traceback.use_stats = "" ∧
    AlignerBuilder.default.return_table.enable_traceback.use_table = "_table" :=
  ⟨rfl, by decide, rfl⟩

/-- Claim C5 as amended: `enable_traceback` always leaves traceback active
and the stats option cleared, but leaves the table option exactly as it
was. -/
theorem traceback_clears_stats_only (b : AlignerBuilder) :
    (b.enable_traceback).use_trace = "_trace" ∧
    (b.enable_traceback).use_stats = "" ∧
    (b.enable_traceback).use_table = b.use_table := by
  unfold AlignerBuilder.enable_traceback
  by_cases h : b.use_stats = "" <;> simp [h]

/-- Claim C6 (code bug): `set_value` on a clone of a builtin matrix
succeeds, performs its write on a fresh heap copy, and leaves the original
backend-static table untouched (the frame part of the claim holds) — but
the receiver is still the `Builtin` variant afterwards, not `Custom`:
`Matrix::clone` rebuilds the receiver's own variant around the fresh copy,
so the promised Builtin-to-Custom conversion never happens. -/
theorem set_value_builtin_stays_builtin :
    builtinSetStep.2.2 = .ok () ∧
    builtinSetStep.2.1 = Matrix.Builtin 2 ∧
    Heap.get builtinSetStep.1 0 = Heap.get builtinHeap 0 ∧
    Matrix.get_value builtinSetStep.1 builtinMatrix 0 0 =
      Matrix.get_value builtinHeap builtinMatrix 0 0 ∧
    Matrix.get_value builtinSetStep.1 builtinSetStep.2.1 0 0 = .ok 100 :=
  ⟨by decide, by decide, by decide, by decide, by decide⟩

/-- Claim C7, counterexample: with a bound Profile and the default (empty)
vectorization strategy, the resolved identifier `parasail_nw_profile` has no
matching profile-shape symbol in an empty backend, yet `build()` returns
`IncompatibleProfileConfig`, not `FunctionLookupFailed`. -/
theorem build_incompatible_profile_ce :
    (AlignerBuilder.default.profile_set plainProfile).get_parasail_fn_name =
      .ok "parasail_nw_profile" ∧
    emptyBackend.lookup_pfunction "parasail_nw_profile" = none ∧
    AlignerBuilder.build emptyBackend (AlignerBuilder.default.profile_set plainProfile) =
      .error (.IncompatibleProfileConfig "") ∧
    AlignerError.IncompatibleProfileConfig "" ≠
      AlignerError.FunctionLookupFailed "parasail_nw_profile" :=
  ⟨by decide, rfl, by decide, by decide⟩

/-- Claim C8 (code bug): the stats accessors are capability-gated as the
claim says, but `get_score_table` consults no capability predicate: on a
result handle with every capability false it still returns `Ok` with the
raw score-table read instead of a `NoTable` error. -/
theorem score_table_accessor_ungated :
    (Alignment.mk plainResult).is_stats = false ∧
    (Alignment.mk plainResult).is_table = false ∧
    (Alignment.mk plainResult).get_matches = .error .NoStatsReturned ∧
    (Alignment.mk plainResult).get_similar = .error .NoStatsReturned ∧
    (Alignment.mk plainResult).get_length = .error .NoStatsReturned ∧
    (Alignment.mk plainResult).get_score_table = .ok 42 :=
  ⟨rfl, rfl, by decide, by decide, by decide, rfl⟩

/-- Claim C7 as amended: once the profile-compatibility validation passes
(no Profile bound, or the vectorization strategy is Striped/Scan), a
resolved identifier whose lookup in the required shape's symbol table
misses makes `build()` return `FunctionLookupFailed` carrying exactly that
identifier — at build time, producing no aligner.  (A configuration with a
bound Profile and any other strategy instead fails at build time with
`IncompatibleProfileConfig`, before the lookup.) -/
theorem build_lookup_failed (bk : Backend) (b : AlignerBuilder) (fn_name : String)
    (hname : b.get_parasail_fn_name = .ok fn_name)
    (hcompat : b.profile.isSome = true →
      b.vec_strategy = "_striped" ∨ b.vec_strategy = "_scan")
    (hmiss : (if b.profile.isSome then bk.lookup_pfunction fn_name
              else bk.lookup_function fn_name) = none) :
    AlignerBuilder.build bk b = .error (.FunctionLookupFailed fn_name) := by
  unfold AlignerBuilder.build
  rw [hname]
  by_cases hp : b.profile.isSome
  · rw [if_pos hp] at hmiss
    rcases hcompat hp with h | h <;>
      simp [hp, h, AlignerFn.is_none, hmiss]
  · rw [if_neg hp] at hmiss
    simp [hp, AlignerFn.is_none, hmiss]

/-- Witness for C7: the default builder (no profile) against a backend with
empty symbol tables fails at build with `FunctionLookupFailed` carrying the
resolved identifier `parasail_nw`. -/
theorem build_lookup_failed_witness :
    AlignerBuilder.build emptyBackend AlignerBuilder.default =
      .error (.FunctionLookupFailed "parasail_nw") :=
  build_lookup_failed emptyBackend AlignerBuilder.default "parasail_nw"
    (by decide) (by decide) rfl

set_option maxRecDepth 8000 in
/-- Claim C9 (code bug): index validation bounds BOTH row and column by
`size - 2` alone, ignoring the backend row count `length`, and the claim's
acceptance condition matches that (`get_value(20, 0)` on a 21-column table
is rejected with `InvalidIndex(20, 0)`); but on a non-square PSSM —
`create_pssm` with the documented 20-symbol/10-row shape gives a 10 × 21
table of 210 entries — the accepted pair (19, 19) passes validation and
both the read offset `19 * (size-2+1) + 19 = 399` and the backend write
offset `19 * size + 19 = 418` lie past the 210-entry flat array, so
`get_value`/`set_value` return `Ok` while accessing the table out of
range, violating the claim's never-out-of-range part. -/
theorem pssm_validated_index_overruns_table :
    Matrix.create_pssm ([] : Heap) pssmAlphabet pssmValues 10 = .ok (pssmHeap, pssmMatrix) ∧
    pssmData.size = 21 ∧
    pssmData.length = 10 ∧
    pssmData.table.length = 210 ∧
    Matrix.get_value pssmHeap pssmMatrix 20 0 = .error (.InvalidIndex 20 0) ∧
    indices_are_valid (pssmData.size - 2) 19 19 = .ok () ∧
    Matrix.get_value pssmHeap pssmMatrix 19 19 = .ok 0 ∧
    (Matrix.set_value pssmHeap pssmMatrix 19 19 7).2.2 = .ok () ∧
    ((19 : Int) * (pssmData.size - 2 + 1) + 19).toNat = 399 ∧
    ((19 : Int) * pssmData.size + 19).toNat = 418 ∧
    pssmData.table.length < 399 ∧
    pssmData.table.length < 418 :=
  ⟨by decide, by decide, by decide, by decide, by decide, by decide,
   by decide, by decide, by decide, by decide, by decide, by decide⟩

set_option maxHeartbeats 1000000 in
/-- Claim C10: the profile-creator dispatcher succeeds for every stats flag
and instruction set exactly when the solution width is absent or one of
8/16/32/64, fails with `FunctionLookupFailed` carrying the full input triple
on any other width, and maps SSE2 and SSE41 to the same creator symbols. -/
theorem profile_creator_lookup_spec (s : Bool) (i : Option InstructionSet)
    (w : Option Nat) :
    ((w = none ∨ w = some 8 ∨ w = some 16 ∨ w = some 32 ∨ w = some 64) →
      ∃ f, profile_creator_lookup s i w = .ok f) ∧
    ((w ≠ none ∧ w ≠ some 8 ∧ w ≠ some 16 ∧ w ≠ some 32 ∧ w ≠ some 64) →
      profile_creator_lookup s i w = .error (.FunctionLookupFailed s i w)) ∧
    ((w = none ∨ w = some 8 ∨ w = some 16 ∨ w = some 32 ∨ w = some 64) →
      profile_creator_lookup s (some .SSE2) w = profile_creator_lookup s (some .SSE41) w) := by
  refine ⟨?_, ?_, ?_⟩
  · rintro (rfl | rfl | rfl | rfl | rfl) <;>
      cases s <;> rcases i with _ | iset <;>
      first
        | exact ⟨_, rfl⟩
        | cases iset <;> exact ⟨_, rfl⟩
  · rintro ⟨h0, h8, h16, h32, h64⟩
    rcases w with _ | n
    · exact absurd rfl h0
    · have hn8 : n ≠ 8 := fun e => h8 (by rw [e])
      have hn16 : n ≠ 16 := fun e => h16 (by rw [e])
      have hn32 : n ≠ 32 := fun e => h32 (by rw [e])
      have hn64 : n ≠ 64 := fun e => h64 (by rw [e])
      unfold profile_creator_lookup
      split <;>
        first
          | rfl
          | exact absurd rfl hn8
          | exact absurd rfl hn16
          | exact absurd rfl hn32
          | exact absurd rfl hn64
          | simp_all
  · rintro (rfl | rfl | rfl | rfl | rfl) <;> cases s <;> rfl

/-- Witness for C10: width 8 resolves (to the stats AVX2 creator) and width
7 is rejected with `FunctionLookupFailed(true, none, some 7)`. -/
theorem profile_creator_lookup_spec_witness :
    (∃ f, profile_creator_lookup true (some .AVX2) (some 8) = .ok f) ∧
    profile_creator_lookup true none (some 7) =
      .error (.FunctionLookupFailed true none (some 7)) :=
  ⟨(profile_creator_lookup_spec true (some .AVX2) (some 8)).1 (by decide),
   (profile_creator_lookup_spec true none (some 7)).2.1 (by decide)⟩

end Parasail
